import Mathlib

/-!
Verification development for the saferr request/response engine.

The definitions below are a shallow embedding of the Go sources:
errors.go, req.go, resp.go, the correlated channel (newCorrelatedChan,
correlatedChanPool), requestor.go (Send, attemptSend), the responder
(ListenAndHandle, Close, handle, sendResp) and options.go.

Machine integers (uint64 request ids, int64 durations in nanoseconds)
are modelled as Nat and Int; channel interactions are modelled by
explicit event lists (which select arm won each wait); panics are
modelled with an explicit PanicOr type and panic payloads as opaque Nat
values, with the recover barriers translated as total handlers.
-/

namespace Saferr

/-- Error sentinels from errors.go.  The two panic conversions wrap the
recovered panic value (fmt.Errorf with the sentinel), modelled by a
payload argument. -/
inductive GoErr where
  | sendTimeout
  | requestorIsClosed
  | responderIsClosed
  | commsChannelIsClosed
  | contextCompleted
  | uncaughtHandlerPanic (v : Nat)
  | uncaughtSendPanic (v : Nat)
  | requestorGoneAway
  | unableToSendRequest
deriving DecidableEq

/-- Outcome of running code that may panic: either the panic value
propagates, or a normal value is produced.  A recover barrier turns a
PanicOr into a plain value. -/
inductive PanicOr (A : Type) where
  | panicked (v : Nat)
  | value (x : A)
deriving DecidableEq

/-- resp[U] from resp.go: id, optional data, optional error, and whether
the self-return hook (returner) is set.  respPool.Get stamps the hook. -/
structure Resp (U : Type) where
  id : Nat
  data : Option U
  err : Option GoErr
  hasReturner : Bool
deriving DecidableEq

/-- respPool.Get from resp.go: an envelope initialised with id, data and
error, with its return hook stamped. -/
def mkPoolResp (U : Type) (id : Nat) (u : Option U) (e : Option GoErr) : Resp U :=
  { id := id, data := u, err := e, hasReturner := true }

/-- The uint64 maximum, math.MaxUint64. -/
def maxUint64 : Nat := 2 ^ 64 - 1

/-- One call of the closure built by getIncrementer in req.go: under the
mutex, if counter == math.MaxUint64 it is set to 0; then counter++ and
the new counter is returned.  The argument is the counter before the
call, the result is both the returned id and the counter after it. -/
def incrNext (c : Nat) : Nat :=
  if c = maxUint64 then 1 else c + 1

/-- Counter value after n calls; getIncrementer starts the counter at 1
(so that 0 indicates an unset req id). -/
def counterSeq : Nat → Nat
  | 0 => 1
  | n + 1 => incrNext (counterSeq n)

/-- The id returned by the (n+1)-th call of the incrementer
(0-indexed): each call returns the post-increment counter. -/
def issuedId (n : Nat) : Nat := counterSeq (n + 1)

/-- correlatedChan state: the mutex-guarded expected id field.  Zero
means idle (back in its pool); non-zero means bound to a rental. -/
structure CorrChan where
  expectedId : Nat
deriving DecidableEq

/-- correlatedChanPool: the multiset of handles currently available in
the sync.Pool, as a list. -/
structure CorrChanPool where
  items : List CorrChan
deriving DecidableEq

/-- correlatedChanPool.Get: take a handle from the pool (sync.Pool.New
builds a fresh zero-id channel when empty) and setId it to the rental's
request id. -/
def CorrChanPool.Get (p : CorrChanPool) (id : Nat) : CorrChan × CorrChanPool :=
  match p.items with
  | [] => ({ expectedId := id }, { items := [] })
  | c :: rest => ({ c with expectedId := id }, { items := rest })

/-- correlatedChanPool.Put: setId(0) and only then place the handle back
into the pool, so the stored handle always has expected id zero. -/
def CorrChanPool.Put (p : CorrChanPool) (c : CorrChan) : CorrChanPool :=
  { items := { c with expectedId := 0 } :: p.items }

/-- The forwarder retry loop of newCorrelatedChan:
for !forwardedOK(r, sendTimeout) && retries < maxRetries { retries++ }.
accepts i tells whether the i-th forwardedOK call won the select against
its timer (the Requestor read dstCh within sendTimeout); the result is
whether the resp was handed to dstCh within maxRetries+1 calls. -/
def forwardLoopAux (accepts : Nat → Bool) : Nat → Nat → Bool
  | i, 0 => accepts i
  | i, fuel + 1 => if accepts i then true else forwardLoopAux accepts (i + 1) fuel

/-- What one iteration of the forwarder goroutine did with the resp it
read from recCh: whether it was delivered to dstCh, and the list of
resps on which close() was invoked during the iteration.  The source
loop body never calls resp.close(): both discard paths are a plain
continue, and retry exhaustion simply falls through to the next
iteration, so closeCalls is empty on every path. -/
structure FwdOutcome (U : Type) where
  delivered : Bool
  closeCalls : List (Resp U)
deriving DecidableEq

/-- One iteration of the forwarder loop in newCorrelatedChan: read the
expected id under the mutex; if it is 0 (handle is back in the pool) or
differs from resp.id (ghost), drop the resp and continue; otherwise
attempt to forward with the bounded retry loop. -/
def forwarderIter (U : Type) (expectedId maxRetries : Nat) (accepts : Nat → Bool)
    (r : Resp U) : FwdOutcome U :=
  if expectedId = 0 ∨ expectedId ≠ r.id then
    { delivered := false, closeCalls := [] }
  else
    { delivered := forwardLoopAux accepts 0 maxRetries, closeCalls := [] }

/-- The requestor side of commsBase: its atomic closed flag. -/
structure RequestorState where
  closed : Bool
deriving DecidableEq

/-- Which arm of the submit select in attemptSend won on one loop
iteration: the closed done chan was read, the req was pushed onto the
shared work chan, or the 100 microsecond submit timer fired. -/
inductive SubmitEvent where
  | doneObserved
  | pushed
  | timerElapsed
deriving DecidableEq

/-- Result of the submit loop: the req is on the shared chan, the loop
failed with an error, or no select arm ever fired (still waiting). -/
inductive SubmitOutcome where
  | ok
  | failed (e : GoErr)
  | blocked
deriving DecidableEq

/-- The submit loop of attemptSend (requestor.go): per iteration, the
done chan sets the closed flag and fails with ErrCommsChannelIsClosed; a
successful push exits; a timer fire increments attempts and fails with
ErrUnableToSendRequest once attempts reaches maxAttempts (3), without
touching the closed flag. -/
def submitLoop (maxAttempts : Nat) :
    List SubmitEvent → Nat → RequestorState → RequestorState × SubmitOutcome
  | [], _, s => (s, .blocked)
  | .doneObserved :: _, _, s => ({ s with closed := true }, .failed .commsChannelIsClosed)
  | .pushed :: _, _, s => (s, .ok)
  | .timerElapsed :: evs, attempts, s =>
      if maxAttempts ≤ attempts + 1 then (s, .failed .unableToSendRequest)
      else submitLoop maxAttempts evs (attempts + 1) s

/-- Which arm of the receive select in attemptSend won: the response
timer fired, or a resp arrived on the req's reply channel. -/
inductive RecvEvent (U : Type) where
  | timerFired
  | respArrived (r : Resp U)
deriving DecidableEq

/-- Result of the receive loop: a matching resp was taken, the response
timer fired (ErrSendTimeout), or the loop is still waiting. -/
inductive RecvOutcome (U : Type) where
  | matched (r : Resp U)
  | timedOut
  | blocked
deriving DecidableEq

/-- The receive loop of attemptSend (requestor.go lines 93-113): a resp
whose id differs from req.id is closed (ghost defence) and the loop
keeps waiting; a resp with the matching id ends the loop.  The second
component lists the resps on which close() was invoked inside the loop. -/
def recvLoop (U : Type) (reqId : Nat) :
    List (RecvEvent U) → RecvOutcome U × List (Resp U)
  | [] => (.blocked, [])
  | .timerFired :: _ => (.timedOut, [])
  | .respArrived r :: evs =>
      if r.id ≠ reqId then
        let rest := recvLoop U reqId evs
        (rest.1, r :: rest.2)
      else (.matched r, [])

/-- The environment of one attemptSend run: the submit select outcomes,
the receive select outcomes, and whether the body raised a panic (the
recovered value), modelled at entry of the recover barrier's scope. -/
structure SendEvents (U : Type) where
  submit : List SubmitEvent
  recv : List (RecvEvent U)
  panics : Option Nat

/-- The observable result of Send: the matched response envelope (Send
returns its data and err and then closes it), a typed error, or still
blocked in a wait. -/
inductive SendResult (U : Type) where
  | success (r : Resp U)
  | failure (e : GoErr)
  | blocked
deriving DecidableEq

/-- Everything a Send run produced: the requestor state after the call,
the incrementer counter after the call, the result, and the ghost resps
that the receive loop closed. -/
structure SendOut (U : Type) where
  state : RequestorState
  counter : Nat
  result : SendResult U
  ghostsClosed : List (Resp U)
deriving DecidableEq

/-- attemptSend without its recover barrier: rent the req from the pool
(stamping it with the next id from the incrementer and renting a
correlated channel bound to that id), run the submit loop (3 attempts),
then the receive loop against the rented id. -/
def attemptSendRun (U : Type) (counter : Nat) (s : RequestorState)
    (ev : SendEvents U) : SendOut U :=
  let reqId := incrNext counter
  let sub := submitLoop 3 ev.submit 0 s
  match sub.2 with
  | .failed e => { state := sub.1, counter := reqId, result := .failure e, ghostsClosed := [] }
  | .blocked => { state := sub.1, counter := reqId, result := .blocked, ghostsClosed := [] }
  | .ok =>
      let rcv := recvLoop U reqId ev.recv
      match rcv.1 with
      | .timedOut => { state := sub.1, counter := reqId, result := .failure .sendTimeout, ghostsClosed := rcv.2 }
      | .blocked => { state := sub.1, counter := reqId, result := .blocked, ghostsClosed := rcv.2 }
      | .matched r => { state := sub.1, counter := reqId, result := .success r, ghostsClosed := rcv.2 }

/-- attemptSend with its deferred recover: a panic raised by the body is
converted into ErrUncaughtSendPanic wrapping the panic value. -/
def attemptSend (U : Type) (counter : Nat) (s : RequestorState)
    (ev : SendEvents U) : SendOut U :=
  match ev.panics with
  | some v => { state := s, counter := counter, result := .failure (.uncaughtSendPanic v), ghostsClosed := [] }
  | none => attemptSendRun U counter s ev

/-- The pre-check select of Send: whether the pair's parent context or
the caller's context was already done when Send entered. -/
inductive SendCtx where
  | parentDone
  | callerDone
  | neither
deriving DecidableEq

/-- Requestor.Send (requestor.go): a done context sets the closed flag
and fails with ErrContextCompleted; an already-closed requestor fails
with ErrRequestorIsClosed; otherwise attemptSend runs. -/
def send (U : Type) (cx : SendCtx) (counter : Nat) (s : RequestorState)
    (ev : SendEvents U) : SendOut U :=
  match cx with
  | .parentDone => { state := { s with closed := true }, counter := counter, result := .failure .contextCompleted, ghostsClosed := [] }
  | .callerDone => { state := { s with closed := true }, counter := counter, result := .failure .contextCompleted, ghostsClosed := [] }
  | .neither =>
      if s.closed then { state := s, counter := counter, result := .failure .requestorIsClosed, ghostsClosed := [] }
      else attemptSend U counter s ev

/-- The responder side: commsBase closed flag, the sync.Once pair
(initialise for the gone-away deadline, once for closing done), the
gone-away deadline, whether the done chan has been closed and how many
times close(done) actually ran. -/
structure ResponderState where
  closed : Bool
  initialised : Bool
  hasGoneAway : Int
  onceUsed : Bool
  doneClosed : Bool
  doneCloseCount : Nat
deriving DecidableEq

/-- What a user handler call does: return (data, err) normally, or
panic with a value. -/
inductive HandlerRun (U : Type) where
  | ok (u : Option U) (e : Option GoErr)
  | panics (v : Nat)

/-- The handler body inside responder.handle, before the deferred
recover: a panicking handler propagates its panic, a normal handler
yields a pool resp stamped with the req id and its (data, err). -/
def handleBody (T U : Type) (h : T → HandlerRun U) (t : T) (reqId : Nat) :
    PanicOr (Resp U) :=
  match h t with
  | .panics v => .panicked v
  | .ok u e => .value (mkPoolResp U reqId u e)

/-- responder.handle with its deferred recover: on panic, a resp
carrying ErrUncaughtHandlerPanic wrapping the panic value is produced
and pushed via sendResp; either way handle returns nil.  The result is
the list of resps pushed to the reply channel and the returned error. -/
def handleRun (T U : Type) (h : T → HandlerRun U) (t : T) (reqId : Nat) :
    List (Resp U) × Option GoErr :=
  match handleBody T U h t reqId with
  | .panicked v => ([mkPoolResp U reqId none (some (.uncaughtHandlerPanic v))], none)
  | .value r => ([r], none)

/-- Which arm of the four-way select in ListenAndHandle won: the listen
timer, the parent or caller context, or a req read from the shared work
chan (with the channel-open flag the read carries). -/
inductive ListenEvent (T : Type) where
  | timerElapsed
  | parentCtxDone
  | ctxDone
  | reqArrived (reqId : Nat) (t : T) (chOpen : Bool)

/-- Responder.ListenAndHandle: first-call initialisation of the
gone-away deadline, then the four-way select.  now is the current time
(nanoseconds) when the select resolves; gat is the configured
requestorGoneAwayTimeout.  The result is the state after the call, the
returned error (none is a nil return, i.e. success) and the resps
pushed to the arriving req's reply channel. -/
def listenAndHandle (T U : Type) (gat now : Int) (h : T → HandlerRun U)
    (ev : ListenEvent T) (s : ResponderState) :
    ResponderState × Option GoErr × List (Resp U) :=
  let s := if s.initialised then s else { s with initialised := true, hasGoneAway := now + gat }
  match ev with
  | .timerElapsed =>
      if s.hasGoneAway < now then ({ s with closed := true }, some .requestorGoneAway, [])
      else (s, none, [])
  | .parentCtxDone => ({ s with closed := true }, some .contextCompleted, [])
  | .ctxDone => ({ s with closed := true }, some .contextCompleted, [])
  | .reqArrived reqId t chOpen =>
      if chOpen = false then (s, some .commsChannelIsClosed, [])
      else if s.closed then (s, none, [mkPoolResp U reqId none (some .responderIsClosed)])
      else
        let s := { s with hasGoneAway := now + gat }
        let pr := handleRun T U h t reqId
        (s, pr.2, pr.1)

/-- close(r.done): closing an already-closed Go channel panics. -/
def closeDoneChan (doneClosed : Bool) : PanicOr Unit :=
  if doneClosed then .panicked 0 else .value ()

/-- Responder.Close: setClosed, then once.Do(close(done)).  The
sync.Once guard means close(done) runs at most one time, guarding
against the panic of a double channel close. -/
def respClose (s : ResponderState) : PanicOr ResponderState :=
  let s := { s with closed := true }
  if s.onceUsed then .value s
  else
    match closeDoneChan s.doneClosed with
    | .panicked v => .panicked v
    | .value _ =>
        .value { s with onceUsed := true, doneClosed := true, doneCloseCount := s.doneCloseCount + 1 }

/-- n successive calls of Responder.Close, propagating any panic. -/
def closeIter : Nat → ResponderState → PanicOr ResponderState
  | 0, s => .value s
  | n + 1, s =>
      match respClose s with
      | .panicked v => .panicked v
      | .value s2 => closeIter n s2

/-- The numeric fields of Options (options.go); durations are int64
nanoseconds, as in Go time.Duration. -/
structure Options where
  requestorTimeout : Int
  requestorGoneAwayTimeout : Int
  responderTimeout : Int
  chanSize : Int
  correlatedChanSize : Int
  correlatedChanRetries : Int
  correlatedChanAddTimeout : Int
deriving DecidableEq

/-- time.Millisecond in nanoseconds. -/
def millisecond : Int := 1000000

/-- time.Second in nanoseconds. -/
def second : Int := 1000000000

/-- time.Minute in nanoseconds. -/
def minute : Int := 60 * second

/-- The defaults value of options.go. -/
def defaults : Options :=
  { requestorTimeout := 30 * second,
        requestorGoneAwayTimeout := 2 * minute,
        responderTimeout := 1 * second,
        chanSize := 100,
        correlatedChanSize := 10,
        correlatedChanRetries := 5,
        correlatedChanAddTimeout := 100 * millisecond }

/-- WithCorrelatedChanSize: the buffer size is changed only when the
argument is strictly greater than the default (10). -/
def WithCorrelatedChanSize (size : Int) (o : Options) : Options :=
  if defaults.correlatedChanSize < size then { o with correlatedChanSize := size } else o

/-- WithCorrelatedChanRetries: the retry count is changed only when the
argument is strictly greater than the default (5). -/
def WithCorrelatedChanRetries (retries : Int) (o : Options) : Options :=
  if defaults.correlatedChanRetries < retries then { o with correlatedChanRetries := retries } else o

/-- WithCorrelatedChanAddTimeout: the per-attempt forwarder timeout is
changed only when the argument is strictly greater than the default
(100 ms) and strictly less than time.Minute. -/
def WithCorrelatedChanAddTimeout (d : Int) (o : Options) : Options :=
  if defaults.correlatedChanAddTimeout < d ∧ d < minute then { o with correlatedChanAddTimeout := d } else o

/-! Helper lemmas (shared by several of the claim theorems below). -/

theorem incrNext_ne_zero (c : Nat) : incrNext c ≠ 0 := by
  unfold incrNext
  split <;> simp

theorem issuedId_succ (n : Nat) : issuedId (n + 1) = incrNext (issuedId n) := rfl

theorem recvLoop_spec (U : Type) (reqId : Nat) (evs : List (RecvEvent U)) :
    (∀ r, (recvLoop U reqId evs).1 = RecvOutcome.matched r → r.id = reqId)
    ∧ (∀ g ∈ (recvLoop U reqId evs).2, g.id ≠ reqId) := by
  induction evs with
  | nil =>
      refine ⟨fun r h => ?_, fun g hg => ?_⟩
      · simp [recvLoop] at h
      · simp [recvLoop] at hg
  | cons e evs ih =>
      cases e with
      | timerFired =>
          refine ⟨fun r h => ?_, fun g hg => ?_⟩
          · simp [recvLoop] at h
          · simp [recvLoop] at hg
      | respArrived r0 =>
          by_cases hid : r0.id = reqId
          · refine ⟨fun r h => ?_, fun g hg => ?_⟩
            · simp [recvLoop, hid] at h
              rw [← h]
              exact hid
            · simp [recvLoop, hid] at hg
          · refine ⟨fun r h => ?_, fun g hg => ?_⟩
            · simp [recvLoop, hid] at h
              exact (ih.1 r) h
            · simp [recvLoop, hid] at hg
              rcases hg with hg | hg
              · rw [hg]; exact hid
              · exact ih.2 g hg

theorem recvLoop_ghost_cons (U : Type) (reqId : Nat) (g : Resp U) (evs : List (RecvEvent U))
    (h : g.id ≠ reqId) :
    recvLoop U reqId (RecvEvent.respArrived g :: evs)
      = ((recvLoop U reqId evs).1, g :: (recvLoop U reqId evs).2) := by
  simp [recvLoop, h]

theorem attemptSendRun_success (U : Type) (counter : Nat) (s : RequestorState)
    (ev : SendEvents U) (r : Resp U)
    (h : (attemptSendRun U counter s ev).result = SendResult.success r) :
    r.id = incrNext counter
    ∧ ∀ g ∈ (attemptSendRun U counter s ev).ghostsClosed, g.id ≠ incrNext counter := by
  unfold attemptSendRun at h ⊢
  rcases hsub : (submitLoop 3 ev.submit 0 s).2 with _ | e | _ <;> simp only [hsub] at h ⊢
  · rcases hrc : (recvLoop U (incrNext counter) ev.recv).1 with r0 | _ | _ <;>
      simp only [hrc] at h ⊢
    · simp only [SendResult.success.injEq] at h
      subst h
      exact ⟨(recvLoop_spec U (incrNext counter) ev.recv).1 r0 hrc,
        (recvLoop_spec U (incrNext counter) ev.recv).2⟩
    · exact absurd h (by simp)
    · exact absurd h (by simp)
  · exact absurd h (by simp)
  · exact absurd h (by simp)

theorem respClose_closed (s s2 : ResponderState)
    (h : respClose s = PanicOr.value s2) : s2.closed = true := by
  rcases s with ⟨cl, ini, hga, ou, dc, cnt⟩
  cases ou with
  | false =>
      cases dc with
      | false =>
          simp [respClose, closeDoneChan] at h
          rw [← h]
      | true =>
          simp [respClose, closeDoneChan] at h
  | true =>
      simp [respClose] at h
      rw [← h]

theorem respClose_fixed (s : ResponderState) (h1 : s.onceUsed = true) (h2 : s.closed = true) :
    respClose s = PanicOr.value s := by
  rcases s with ⟨cl, ini, hga, ou, dc, cnt⟩
  simp only at h1 h2
  subst h1
  subst h2
  simp [respClose]

theorem closeIter_fixed (m : Nat) (s : ResponderState)
    (h1 : s.onceUsed = true) (h2 : s.closed = true) :
    closeIter m s = PanicOr.value s := by
  induction m with
  | zero => rfl
  | succ m ih =>
      unfold closeIter
      rw [respClose_fixed s h1 h2]
      exact ih

theorem withSize_ge (k : Int) (o : Options) (h : 10 ≤ o.correlatedChanSize) :
    10 ≤ (WithCorrelatedChanSize k o).correlatedChanSize := by
  unfold WithCorrelatedChanSize
  split_ifs with hk
  · have hk2 : (10 : Int) < k := hk
    simp only
    omega
  · exact h

theorem withRetries_ge (k : Int) (o : Options) (h : 5 ≤ o.correlatedChanRetries) :
    5 ≤ (WithCorrelatedChanRetries k o).correlatedChanRetries := by
  unfold WithCorrelatedChanRetries
  split_ifs with hk
  · have hk2 : (5 : Int) < k := hk
    simp only
    omega
  · exact h

theorem foldSize_ge (args : List Int) (o : Options) (h : 10 ≤ o.correlatedChanSize) :
    10 ≤ (args.foldl (fun acc k => WithCorrelatedChanSize k acc) o).correlatedChanSize := by
  induction args generalizing o with
  | nil => simpa using h
  | cons a as ih => exact ih _ (withSize_ge a o h)

theorem foldRetries_ge (args : List Int) (o : Options) (h : 5 ≤ o.correlatedChanRetries) :
    5 ≤ (args.foldl (fun acc k => WithCorrelatedChanRetries k acc) o).correlatedChanRetries := by
  induction args generalizing o with
  | nil => simpa using h
  | cons a as ih => exact ih _ (withRetries_ge a o h)

/-! The claim theorems. -/

/-- C8: the ids issued by getIncrementer are never zero, grow by exactly
one between consecutive calls while below the uint64 maximum (so
issuance is strictly monotonic up to a wrap), and after a call has
returned the uint64 maximum the counter resets so that the next call
returns 1. -/
theorem c8_id_generator (n : Nat) :
    issuedId n ≠ 0
    ∧ (issuedId n = maxUint64 → issuedId (n + 1) = 1)
    ∧ (issuedId n ≠ maxUint64 → issuedId (n + 1) = issuedId n + 1)
    ∧ (issuedId n ≠ maxUint64 → issuedId n < issuedId (n + 1)) := by
  refine ⟨?_, ?_, ?_, ?_⟩
  · show incrNext (counterSeq n) ≠ 0
    exact incrNext_ne_zero _
  · intro h
    rw [issuedId_succ, h]
    unfold incrNext
    simp
  · intro h
    rw [issuedId_succ]
    unfold incrNext
    rw [if_neg h]
  · intro h
    rw [issuedId_succ]
    unfold incrNext
    rw [if_neg h]
    exact Nat.lt_succ_self _

/-- Witness for C8 at n = 0: the first issued id is non-zero and the
second issued id is the first plus one. -/
theorem c8_id_generator_witness : issuedId 0 ≠ 0 ∧ issuedId 1 = issuedId 0 + 1 :=
  ⟨(c8_id_generator 0).1, (c8_id_generator 0).2.2.1 (by decide)⟩

/-- C9 counterexample: the claim says a requested value above one
minute yields one minute; but WithCorrelatedChanAddTimeout applied to
the defaults with two minutes leaves the timeout at the 100 ms default,
not at one minute. -/
theorem c9_counterexample :
    (WithCorrelatedChanAddTimeout (2 * minute) defaults).correlatedChanAddTimeout ≠ minute
    ∧ (WithCorrelatedChanAddTimeout (2 * minute) defaults).correlatedChanAddTimeout
        = 100 * millisecond := by
  refine ⟨?_, ?_⟩ <;> decide

/-- C9 amended: a requested duration is used only when strictly between
the 100 ms default and one minute; any other request (at or below
100 ms, or at or above one minute) is ignored and the timeout stays at
the 100 ms default. -/
theorem c9_timeout_clamp_amended (d : Int) :
    (WithCorrelatedChanAddTimeout d defaults).correlatedChanAddTimeout
      = if 100 * millisecond < d ∧ d < minute then d else 100 * millisecond := by
  have e : WithCorrelatedChanAddTimeout d defaults
      = if 100 * millisecond < d ∧ d < minute then
          { defaults with correlatedChanAddTimeout := d } else defaults := rfl
  rw [e]
  split_ifs <;> rfl

/-- C10: WithCorrelatedChanSize and WithCorrelatedChanRetries silently
ignore any argument not strictly greater than the default (10 and 5):
the options value is left unchanged (the default, when starting from
the defaults) and no error is reported; consequently no sequence of
applications can configure either setting at or below its default. -/
theorem c10_size_retry_setters (n m : Int) (o : Options) (args brgs : List Int)
    (h1 : n ≤ 10) (h2 : m ≤ 5) :
    WithCorrelatedChanSize n defaults = defaults
    ∧ WithCorrelatedChanRetries m defaults = defaults
    ∧ (WithCorrelatedChanSize n o).correlatedChanSize = o.correlatedChanSize
    ∧ (WithCorrelatedChanRetries m o).correlatedChanRetries = o.correlatedChanRetries
    ∧ 10 ≤ (args.foldl (fun acc k => WithCorrelatedChanSize k acc) defaults).correlatedChanSize
    ∧ 5 ≤ (brgs.foldl (fun acc k => WithCorrelatedChanRetries k acc) defaults).correlatedChanRetries := by
  have hn : ¬ defaults.correlatedChanSize < n := not_lt.mpr h1
  have hm : ¬ defaults.correlatedChanRetries < m := not_lt.mpr h2
  refine ⟨?_, ?_, ?_, ?_, ?_, ?_⟩
  · unfold WithCorrelatedChanSize
    rw [if_neg hn]
  · unfold WithCorrelatedChanRetries
    rw [if_neg hm]
  · unfold WithCorrelatedChanSize
    rw [if_neg hn]
  · unfold WithCorrelatedChanRetries
    rw [if_neg hm]
  · exact foldSize_ge args defaults (by decide)
  · exact foldRetries_ge brgs defaults (by decide)

/-- Witness for C10 at the boundary arguments 10 and 5. -/
theorem c10_size_retry_setters_witness :
    WithCorrelatedChanSize 10 defaults = defaults :=
  (c10_size_retry_setters 10 5 defaults [] [] (by decide) (by decide)).1

/-- C1: whenever Send returns success, the response envelope it
consumed carries exactly the id issued to this call's Req by the pool
(the incrementer value drawn at the start); every resp the receive
loop closed as a ghost had a foreign id; and a foreign-id arrival is
closed and the loop keeps waiting on the remaining events instead of
returning it. -/
theorem c1_id_correlation (U : Type) (cx : SendCtx) (counter : Nat) (rs : RequestorState)
    (ev : SendEvents U) (r : Resp U)
    (hs : (send U cx counter rs ev).result = SendResult.success r) :
    r.id = incrNext counter
    ∧ (∀ g ∈ (send U cx counter rs ev).ghostsClosed, g.id ≠ incrNext counter)
    ∧ ∀ (reqId : Nat) (evs : List (RecvEvent U)) (g : Resp U), g.id ≠ reqId →
        recvLoop U reqId (RecvEvent.respArrived g :: evs)
          = ((recvLoop U reqId evs).1, g :: (recvLoop U reqId evs).2) := by
  refine ⟨?_, ?_, fun reqId evs g h => recvLoop_ghost_cons U reqId g evs h⟩
  · cases cx with
    | parentDone => simp [send] at hs
    | callerDone => simp [send] at hs
    | neither =>
        by_cases hcl : rs.closed
        · simp [send, hcl] at hs
        · rcases hp : ev.panics with _ | v
          · simp only [send, hcl, if_false, attemptSend, hp] at hs
            exact (attemptSendRun_success U counter rs ev r hs).1
          · simp [send, hcl, attemptSend, hp] at hs
  · cases cx with
    | parentDone => simp [send] at hs
    | callerDone => simp [send] at hs
    | neither =>
        by_cases hcl : rs.closed
        · simp [send, hcl] at hs
        · rcases hp : ev.panics with _ | v
          · simp only [send, hcl, if_false, attemptSend, hp] at hs ⊢
            exact (attemptSendRun_success U counter rs ev r hs).2
          · simp [send, hcl, attemptSend, hp] at hs

/-- Witness for C1: a concrete Send run in which a ghost resp with id 7
arrives first and the matching resp with id 2 arrives second. -/
theorem c1_id_correlation_witness :
    ({ id := 2, data := none, err := none, hasReturner := true } : Resp Unit).id = incrNext 1 :=
  (c1_id_correlation Unit .neither 1 { closed := false }
    { submit := [.pushed],
          recv := [.respArrived { id := 7, data := none, err := none, hasReturner := true },
               .respArrived { id := 2, data := none, err := none, hasReturner := true }],
          panics := none }
    { id := 2, data := none, err := none, hasReturner := true } (by decide)).1

/-- C2: panic containment.  A handler panic is recovered inside handle
and converted to a resp carrying ErrUncaughtHandlerPanic wrapping the
panic value while ListenAndHandle still returns nil; a non-panicking
handler's (data, err) are delivered unchanged; a panic inside the body
of Send is recovered and converted to ErrUncaughtSendPanic; and the
converted handler-panic resp is delivered to the matching Send, which
returns it as an ordinary erroring response.  In every case the panic is
converted, never propagated to the caller. -/
theorem c2_panic_containment (T U : Type) (hp ho : T → HandlerRun U) (t : T)
    (reqId : Nat) (gat now : Int) (s : ResponderState)
    (counter : Nat) (rs : RequestorState) (ev : SendEvents U)
    (u : Option U) (e : Option GoErr) (v : Nat)
    (h1 : hp t = .panics v) (h2 : ho t = .ok u e)
    (h3 : s.closed = false) (h4 : s.initialised = true) (h5 : rs.closed = false) :
    handleRun T U hp t reqId = ([mkPoolResp U reqId none (some (.uncaughtHandlerPanic v))], none)
    ∧ handleRun T U ho t reqId = ([mkPoolResp U reqId u e], none)
    ∧ listenAndHandle T U gat now hp (.reqArrived reqId t true) s
        = ({ s with hasGoneAway := now + gat }, none,
            [mkPoolResp U reqId none (some (.uncaughtHandlerPanic v))])
    ∧ listenAndHandle T U gat now ho (.reqArrived reqId t true) s
        = ({ s with hasGoneAway := now + gat }, none, [mkPoolResp U reqId u e])
    ∧ (send U .neither counter rs { ev with panics := some v }).result
        = .failure (.uncaughtSendPanic v)
    ∧ (send U .neither counter rs
        { submit := [.pushed],
              recv := [.respArrived (mkPoolResp U (incrNext counter) none (some (.uncaughtHandlerPanic v)))],
              panics := none }).result
        = .success (mkPoolResp U (incrNext counter) none (some (.uncaughtHandlerPanic v))) := by
  refine ⟨?_, ?_, ?_, ?_, ?_, ?_⟩
  · simp [handleRun, handleBody, h1]
  · simp [handleRun, handleBody, h2]
  · simp [listenAndHandle, h3, h4, handleRun, handleBody, h1]
  · simp [listenAndHandle, h3, h4, handleRun, handleBody, h2]
  · simp [send, h5, attemptSend]
  · simp [send, h5, attemptSend, attemptSendRun, submitLoop, recvLoop, mkPoolResp]

/-- Witness for C2 with an always-panicking and an echoing handler. -/
theorem c2_panic_containment_witness :
    handleRun Unit Unit (fun _ => HandlerRun.panics 9) () 5
      = ([mkPoolResp Unit 5 none (some (.uncaughtHandlerPanic 9))], none) :=
  (c2_panic_containment Unit Unit (fun _ => HandlerRun.panics 9)
    (fun _ => HandlerRun.ok none none) () 5 10 0
    { closed := false, initialised := true, hasGoneAway := 0,
          onceUsed := false, doneClosed := false, doneCloseCount := 0 }
    1 { closed := false } { submit := [], recv := [], panics := none }
    none none 9 rfl rfl rfl rfl rfl).1

/-- C3 counterexample: the claim requires every operation on a closed
side to fail with a typed error, but ListenAndHandle on a closed
Responder returns nil (success) when the listen timer elapses before
the gone-away deadline. -/
theorem c3_counterexample :
    ({ closed := true, initialised := true, hasGoneAway := 100,
           onceUsed := false, doneClosed := false, doneCloseCount := 0 } : ResponderState).closed = true
    ∧ (listenAndHandle Unit Unit 1000000000 0 (fun _ => HandlerRun.ok none none)
        ListenEvent.timerElapsed
        { closed := true, initialised := true, hasGoneAway := 100,
              onceUsed := false, doneClosed := false, doneCloseCount := 0 }).2.1 = none := by
  refine ⟨rfl, ?_⟩
  decide

/-- C3 amended: the closed flag of either side is never unset by any
operation (closed is absorbing), and Send on a closed Requestor fails
with ErrRequestorIsClosed; but a closed Responder's ListenAndHandle
does not always fail: a request arriving after close is answered with a
ResponderClosed resp while ListenAndHandle itself returns nil, never
invoking the handler (its behaviour is independent of the handler). -/
theorem c3_closed_monotonic_amended (T U : Type) (cx : SendCtx) (counter : Nat)
    (rs : RequestorState) (ev : SendEvents U) (gat now : Int)
    (hA hB : T → HandlerRun U) (lev : ListenEvent T) (s : ResponderState)
    (reqId : Nat) (t : T)
    (hc : rs.closed = true) (hs : s.closed = true) (hi : s.initialised = true) :
    (send U cx counter rs ev).state.closed = true
    ∧ (listenAndHandle T U gat now hA lev s).1.closed = true
    ∧ (∀ s2, respClose s = PanicOr.value s2 → s2.closed = true)
    ∧ send U .neither counter rs ev
        = { state := rs, counter := counter, result := .failure .requestorIsClosed, ghostsClosed := [] }
    ∧ listenAndHandle T U gat now hA (.reqArrived reqId t true) s
        = (s, none, [mkPoolResp U reqId none (some .responderIsClosed)])
    ∧ listenAndHandle T U gat now hA lev s = listenAndHandle T U gat now hB lev s := by
  refine ⟨?_, ?_, ?_, ?_, ?_, ?_⟩
  · cases cx with
    | parentDone => simp [send]
    | callerDone => simp [send]
    | neither => simp [send, hc]
  · cases lev with
    | timerElapsed =>
        simp only [listenAndHandle, hi, if_true]
        split_ifs <;> simp [hs]
    | parentCtxDone => simp [listenAndHandle, hi]
    | ctxDone => simp [listenAndHandle, hi]
    | reqArrived rid t2 chOpen =>
        cases chOpen <;> simp [listenAndHandle, hi, hs]
  · exact fun s2 h => respClose_closed s s2 h
  · simp [send, hc]
  · simp [listenAndHandle, hi, hs]
  · cases lev with
    | timerElapsed => simp [listenAndHandle, hi]
    | parentCtxDone => simp [listenAndHandle, hi]
    | ctxDone => simp [listenAndHandle, hi]
    | reqArrived rid t2 chOpen =>
        cases chOpen <;> simp [listenAndHandle, hi, hs]

/-- Witness for C3 (amended): a closed requestor rejects a Send with
ErrRequestorIsClosed. -/
theorem c3_closed_monotonic_amended_witness :
    send Unit .neither 1 { closed := true } { submit := [], recv := [], panics := none }
      = { state := { closed := true }, counter := 1,
              result := .failure .requestorIsClosed, ghostsClosed := [] } :=
  (c3_closed_monotonic_amended Unit Unit .neither 1 { closed := true }
    { submit := [], recv := [], panics := none } 10 0
    (fun _ => HandlerRun.ok none none) (fun _ => HandlerRun.ok none none)
    ListenEvent.timerElapsed
    { closed := true, initialised := true, hasGoneAway := 100,
          onceUsed := false, doneClosed := false, doneCloseCount := 0 }
    4 () rfl rfl rfl).2.2.2.1

/-- C4: the per-rental state machine of a correlated channel.  Put
stores the handle with its expected id already reset to zero; Get binds
the rented handle to the requested id; a Get followed by a Put leaves
an idle (zero-id) handle in the pool; an idle forwarder delivers
nothing; and a forwarder bound to k delivers only resps whose id is k. -/
theorem c4_corrchan_rental (U : Type) (p : CorrChanPool) (c : CorrChan)
    (k maxR : Nat) (accepts : Nat → Bool) (r r2 : Resp U)
    (hk : k ≠ 0) (hd : (forwarderIter U k maxR accepts r).delivered = true) :
    CorrChanPool.Put p c = { items := { expectedId := 0 } :: p.items }
    ∧ (CorrChanPool.Get p k).1.expectedId = k
    ∧ (CorrChanPool.Put (CorrChanPool.Get p k).2 (CorrChanPool.Get p k).1).items.head?
        = some { expectedId := 0 }
    ∧ (forwarderIter U 0 maxR accepts r2).delivered = false
    ∧ r.id = k := by
  refine ⟨?_, ?_, ?_, ?_, ?_⟩
  · rcases c with ⟨cid⟩
    simp [CorrChanPool.Put]
  · rcases p with ⟨items⟩
    cases items with
    | nil => simp [CorrChanPool.Get]
    | cons c0 rest => simp [CorrChanPool.Get]
  · rcases p with ⟨items⟩
    cases items with
    | nil => simp [CorrChanPool.Get, CorrChanPool.Put]
    | cons c0 rest =>
        rcases c0 with ⟨cid⟩
        simp [CorrChanPool.Get, CorrChanPool.Put]
  · simp [forwarderIter]
  · by_cases hid : k = r.id
    · exact hid.symm
    · simp [forwarderIter, hk, hid] at hd

/-- Witness for C4 with a rental bound to id 5 and a resp with id 5
delivered on the first forward attempt. -/
theorem c4_corrchan_rental_witness :
    ({ id := 5, data := none, err := none, hasReturner := true } : Resp Unit).id = 5 :=
  (c4_corrchan_rental Unit { items := [] } { expectedId := 9 } 5 5 (fun _ => true)
    { id := 5, data := none, err := none, hasReturner := true }
    { id := 0, data := none, err := none, hasReturner := true }
    (by decide) (by decide)).2.2.2.2

/-- C5 counterexample: a resp arriving while the channel is idle
(expected id zero) is discarded, yet the forwarder iteration makes no
close() call at all, so the discarded resp is not returned to its pool
through its close hook as the claim requires. -/
theorem c5_counterexample :
    (forwarderIter Unit 0 5 (fun _ => false)
        { id := 7, data := none, err := none, hasReturner := true }).delivered = false
    ∧ (forwarderIter Unit 0 5 (fun _ => false)
        { id := 7, data := none, err := none, hasReturner := true }).closeCalls = [] := by
  refine ⟨?_, ?_⟩ <;> decide

/-- C5 amended: the forwarder never invokes resp.close() — responses it
discards (idle channel, ghost id, or retry exhaustion) are dropped for
the garbage collector rather than returned to their pool; the close-hook
return path for foreign responses is exercised only by Send's receive
loop, which closes exactly the resps whose id differs from its req id. -/
theorem c5_forwarder_drops_amended (U : Type) (cid maxR : Nat) (accepts : Nat → Bool)
    (r : Resp U) (reqId : Nat) (evs : List (RecvEvent U)) :
    (forwarderIter U cid maxR accepts r).closeCalls = []
    ∧ ∀ g ∈ (recvLoop U reqId evs).2, g.id ≠ reqId := by
  refine ⟨?_, (recvLoop_spec U reqId evs).2⟩
  unfold forwarderIter
  split_ifs <;> rfl

/-- Witness for C5 (amended) at a bound channel with a matching resp. -/
theorem c5_forwarder_drops_amended_witness :
    (forwarderIter Unit 3 5 (fun _ => true)
        { id := 3, data := none, err := none, hasReturner := true }).closeCalls = [] :=
  (c5_forwarder_drops_amended Unit 3 5 (fun _ => true)
    { id := 3, data := none, err := none, hasReturner := true } 3 []).1

/-- C6: Close is idempotent.  From a fresh responder (once unused, done
signal open), calling Close n times for any n at least 1 equals calling
it once; the single call sets the closed flag, closes the done signal
exactly once, and no repeated call panics (the iterate is a value, not
a propagated panic). -/
theorem c6_close_idempotent (n : Nat) (s : ResponderState)
    (hn : 1 ≤ n) (h1 : s.onceUsed = false) (h2 : s.doneClosed = false) :
    closeIter n s = respClose s
    ∧ respClose s = PanicOr.value
        { s with closed := true, onceUsed := true, doneClosed := true,
                 doneCloseCount := s.doneCloseCount + 1 } := by
  have hr : respClose s = PanicOr.value
      { s with closed := true, onceUsed := true, doneClosed := true,
               doneCloseCount := s.doneCloseCount + 1 } := by
    simp [respClose, closeDoneChan, h1, h2]
  refine ⟨?_, hr⟩
  cases n with
  | zero => exact absurd hn (by simp)
  | succ m =>
      unfold closeIter
      rw [hr]
      exact closeIter_fixed m _ rfl rfl

/-- Witness for C6: three Close calls on a fresh responder equal one. -/
theorem c6_close_idempotent_witness :
    closeIter 3
      { closed := false, initialised := false, hasGoneAway := 0,
            onceUsed := false, doneClosed := false, doneCloseCount := 0 }
    = respClose
      { closed := false, initialised := false, hasGoneAway := 0,
            onceUsed := false, doneClosed := false, doneCloseCount := 0 } :=
  (c6_close_idempotent 3
    { closed := false, initialised := false, hasGoneAway := 0,
          onceUsed := false, doneClosed := false, doneCloseCount := 0 }
    (by decide) rfl rfl).1

/-- C7: three consecutive submit-timer expiries with no done signal and
no successful push make Send fail with ErrUnableToSendRequest while the
requestor state (in particular its closed flag) is left exactly as it
was; and the same requestor can then complete a later Send
successfully. -/
theorem c7_unable_to_send (U : Type) (counter : Nat) (rs : RequestorState)
    (rest : List SubmitEvent) (recvs : List (RecvEvent U))
    (hc : rs.closed = false) :
    send U .neither counter rs
        { submit := .timerElapsed :: .timerElapsed :: .timerElapsed :: rest,
              recv := recvs, panics := none }
      = { state := rs, counter := incrNext counter,
              result := .failure .unableToSendRequest, ghostsClosed := [] }
    ∧ (send U .neither counter rs
        { submit := [.pushed],
              recv := [.respArrived (mkPoolResp U (incrNext counter) none none)],
              panics := none }).result
      = .success (mkPoolResp U (incrNext counter) none none) := by
  refine ⟨?_, ?_⟩
  · simp [send, hc, attemptSend, attemptSendRun, submitLoop]
  · simp [send, hc, attemptSend, attemptSendRun, submitLoop, recvLoop, mkPoolResp]

/-- Witness for C7 on a fresh requestor. -/
theorem c7_unable_to_send_witness :
    send Unit .neither 1 { closed := false }
        { submit := [.timerElapsed, .timerElapsed, .timerElapsed], recv := [], panics := none }
      = { state := { closed := false }, counter := incrNext 1,
              result := .failure .unableToSendRequest, ghostsClosed := [] } :=
  (c7_unable_to_send Unit 1 { closed := false } [] [] rfl).1

end Saferr
